import Mathlib

/-!
Shallow embedding of `src/main.py` (Route Options API).

Numbers: Python floats are modelled as rationals (ℚ); `round(x, n)` is
modelled by exact decimal rounding with the half-to-even tie rule that
Python `round` uses. Network effects: the single upstream HTTP GET made by
`osrm_get_routes` is modelled by a `FetchOutcome` value describing how the
transport behaved (connection error, other request exception, or a parsed
JSON body); each handler consumes exactly one outcome, mirroring the
absence of retries in the code. The parsed JSON body is modelled by the
shape the code reads from it: an optional `"routes"` field holding a list
of route objects with `distance`, `duration` and `geometry` fields.
Python `list.sort` is stable; it is modelled by `List.insertionSort`,
which is also stable, and for a total preorder all stable sorts agree.
-/

/-- Model of `LatLng` (src/main.py lines 25-27): a latitude/longitude pair.
The pydantic range constraints are enforced by `validateRequest` below. -/
structure LatLng where
  lat : ℚ
  lng : ℚ
deriving DecidableEq, Repr

/-- Model of `VehicleConfig` (src/main.py lines 30-31). -/
structure VehicleConfig where
  fuel_l_per_100km : ℚ
deriving DecidableEq, Repr

/-- Model of `RouteOptionsRequest` (src/main.py lines 34-40), after pydantic
validation. `preference` is kept as a string because Python strings reach
`score_route` unchecked; the `Literal` constraint is part of validation. -/
structure RouteOptionsRequest where
  origin : LatLng
  destination : LatLng
  preference : String
  k : ℕ
  fuel_price_per_liter : ℕ
  vehicle : VehicleConfig
deriving DecidableEq, Repr

/-- Model of the output `RouteOption` (src/main.py lines 43-50). The
`geojson` payload is opaque to the code, modelled as a string. -/
structure RouteOption where
  id : String
  distance_km : ℚ
  duration_min : ℚ
  fuel_liters : ℚ
  fuel_cost_cop : ℚ
  score : ℚ
  geojson : String
deriving DecidableEq, Repr

/-- Model of `RouteOptionsResponse` (src/main.py lines 53-57). -/
structure RouteOptionsResponse where
  preference : String
  requested : ℕ
  returned : ℕ
  routes : List RouteOption
deriving DecidableEq, Repr

/-- Model of `fastapi.HTTPException` as the code uses it: a status code and
a detail message. -/
structure HTTPException where
  status_code : ℕ
  detail : String
deriving DecidableEq, Repr

/-- One route object of the upstream JSON body, with the three fields the
code reads: `distance` (meters), `duration` (seconds) and `geometry`. -/
structure OsrmRoute where
  distance : ℚ
  duration : ℚ
  geometry : String
deriving DecidableEq, Repr

/-- The parsed upstream JSON body, as far as the code inspects it: the
`"routes"` key may be absent (`none`) or hold a list of route objects. -/
structure OsrmBody where
  routesField : Option (List OsrmRoute)
deriving DecidableEq, Repr

/-- Model of `data.get("routes", [])` (src/main.py line 159): a missing
`"routes"` key yields the empty list. -/
def OsrmBody.getRoutes (b : OsrmBody) : List OsrmRoute :=
  b.routesField.getD []

/-- How the single upstream HTTP GET behaved, from the perspective of the
`try/except` dispatch in `osrm_get_routes` (src/main.py lines 94-105):
a `requests.ConnectionError`, any other `requests.RequestException`
(non-2xx status via `raise_for_status`, malformed body, read timeout),
or a successfully parsed JSON body. -/
inductive FetchOutcome where
  | connectionError : FetchOutcome
  | requestFailure : String → FetchOutcome
  | success : OsrmBody → FetchOutcome
deriving DecidableEq, Repr

/-- Model of `estimate_fuel` (src/main.py lines 63-64). -/
def estimate_fuel (distance_km : ℚ) (fuel_l_per_100km : ℚ) : ℚ :=
  (distance_km * fuel_l_per_100km) / 100

/-- Model of `score_route` (src/main.py lines 67-82): selects the metric
named by the preference, falling back to `duration_min` for anything
unrecognized. -/
def score_route (pref : String) (distance_km duration_min fuel_liters fuel_cost : ℚ) : ℚ :=
  if pref = "FASTEST" then duration_min
  else if pref = "SHORT_DISTANCE" then distance_km
  else if pref = "LOW_FUEL" then fuel_liters
  else if pref = "CHEAPEST" then fuel_cost
  else duration_min

/-- Model of `osrm_get_routes` (src/main.py lines 85-105): the body of the
`try/except`. The URL and query-parameter construction only feed the
network request, which is abstracted into the `FetchOutcome`; what remains
is the mapping from the outcome to either the parsed body or an
`HTTPException`. -/
def osrm_get_routes (baseUrl : String) (outcome : FetchOutcome) :
    Except HTTPException OsrmBody :=
  match outcome with
  | .connectionError =>
      .error ⟨502, "No hay conexión con OSRM en " ++ baseUrl ++ ". Verifica que OSRM esté activo."⟩
  | .requestFailure e => .error ⟨502, "OSRM error: " ++ e⟩
  | .success body => .ok body

/-- Exact decimal rounding to an integer with the half-to-even tie rule,
matching Python `round` on exact values. -/
def roundHalfEven (x : ℚ) : ℤ :=
  let f := Rat.floor x
  if x - f < 1/2 then f
  else if 1/2 < x - f then f + 1
  else if f % 2 = 0 then f else f + 1

/-- Model of Python `round(x, ndigits)` on exact values. -/
def pyRound (ndigits : ℕ) (x : ℚ) : ℚ :=
  (roundHalfEven (x * 10 ^ ndigits) : ℚ) / 10 ^ ndigits

/-- One iteration of the loop body in `route_options` (src/main.py lines
166-184): unit conversions, fuel and cost estimation, scoring on the
unrounded values, and the rounded presentation fields. -/
def buildOption (req : RouteOptionsRequest) (idx : ℕ) (rt : OsrmRoute) : RouteOption :=
  let dist_km := rt.distance / 1000
  let dur_min := rt.duration / 60
  let fuel_l := estimate_fuel dist_km req.vehicle.fuel_l_per_100km
  let fuel_cost := fuel_l * (req.fuel_price_per_liter : ℚ)
  let sc := score_route req.preference dist_km dur_min fuel_l fuel_cost
  { id := "r" ++ toString idx
    distance_km := pyRound 3 dist_km
    duration_min := pyRound 1 dur_min
    fuel_liters := pyRound 3 fuel_l
    fuel_cost_cop := pyRound 0 fuel_cost
    score := sc
    geojson := rt.geometry }

/-- The `for idx, rt in enumerate(..., start=1)` loop of `route_options`
(src/main.py lines 164-184), building the `out` list in upstream order. -/
def buildLoop (req : RouteOptionsRequest) : ℕ → List OsrmRoute → List RouteOption
  | _, [] => []
  | idx, rt :: rest => buildOption req idx rt :: buildLoop req (idx + 1) rest

/-- The `out` list right before `out.sort(...)`: the first `k` upstream
candidates in upstream order, converted to `RouteOption`s with sequential
identifiers starting at `"r1"`. -/
def builtOptions (req : RouteOptionsRequest) (routes : List OsrmRoute) : List RouteOption :=
  buildLoop req 1 (routes.take req.k)

/-- Sort key relation of `out.sort(key=lambda x: x.score)`. -/
def scoreLE (a b : RouteOption) : Prop :=
  a.score ≤ b.score

instance : DecidableRel scoreLE :=
  fun a b => inferInstanceAs (Decidable (a.score ≤ b.score))

instance : IsTotal RouteOption scoreLE :=
  ⟨fun a b => le_total a.score b.score⟩

instance : IsTrans RouteOption scoreLE :=
  ⟨fun _ _ _ h₁ h₂ => le_trans h₁ h₂⟩

/-- Model of the `POST /route-options` handler body `route_options`
(src/main.py lines 156-193), given the outcome of its single upstream
fetch. Python `list.sort` is stable, modelled by `List.insertionSort`. -/
def route_options (baseUrl : String) (req : RouteOptionsRequest)
    (outcome : FetchOutcome) : Except HTTPException RouteOptionsResponse :=
  match osrm_get_routes baseUrl outcome with
  | .error e => .error e
  | .ok data =>
      let routes := data.getRoutes
      if routes.isEmpty then
        .error ⟨404, "No se encontraron rutas"⟩
      else
        let sorted := (builtOptions req routes).insertionSort scoreLE
        .ok { preference := req.preference
              requested := req.k
              returned := sorted.length
              routes := sorted }

/-- An inbound request before validation: the raw field values a client
sent (with the defaulting of absent fields already applied, as pydantic
does before range checks). -/
structure RawRequest where
  origin_lat : ℚ
  origin_lng : ℚ
  dest_lat : ℚ
  dest_lng : ℚ
  preference : String
  k : ℤ
  fuel_price_per_liter : ℤ
  fuel_l_per_100km : ℚ
deriving DecidableEq, Repr

/-- The four members of the `Preference` literal type (src/main.py line 14). -/
def validPreferences : List String :=
  ["FASTEST", "LOW_FUEL", "CHEAPEST", "SHORT_DISTANCE"]

/-- The conjunction of the pydantic field constraints declared on
`LatLng`, `VehicleConfig` and `RouteOptionsRequest` (src/main.py lines
25-40). -/
def RawRequest.Valid (raw : RawRequest) : Prop :=
  -90 ≤ raw.origin_lat ∧ raw.origin_lat ≤ 90 ∧
  -180 ≤ raw.origin_lng ∧ raw.origin_lng ≤ 180 ∧
  -90 ≤ raw.dest_lat ∧ raw.dest_lat ≤ 90 ∧
  -180 ≤ raw.dest_lng ∧ raw.dest_lng ≤ 180 ∧
  raw.preference ∈ validPreferences ∧
  1 ≤ raw.k ∧ raw.k ≤ 5 ∧
  0 ≤ raw.fuel_price_per_liter ∧ raw.fuel_price_per_liter ≤ 200000 ∧
  0 < raw.fuel_l_per_100km ∧ raw.fuel_l_per_100km ≤ 50

instance (raw : RawRequest) : Decidable raw.Valid :=
  inferInstanceAs (Decidable (_ ∧ _))

/-- Model of the request validation FastAPI/pydantic performs against the
declared field constraints (src/main.py lines 25-40) before the handler
body runs: a violating request is rejected with a 422 client error. -/
def validateRequest (raw : RawRequest) : Except HTTPException RouteOptionsRequest :=
  if raw.Valid then
    .ok { origin := ⟨raw.origin_lat, raw.origin_lng⟩
          destination := ⟨raw.dest_lat, raw.dest_lng⟩
          preference := raw.preference
          k := raw.k.toNat
          fuel_price_per_liter := raw.fuel_price_per_liter.toNat
          vehicle := ⟨raw.fuel_l_per_100km⟩ }
  else
    .error ⟨422, "Unprocessable Entity"⟩

/-- The full inbound path of `POST /route-options`: validation, then the
handler body. Validation failure short-circuits before the fetch outcome
is ever consumed, mirroring that FastAPI rejects the request before
`route_options` (and hence the network call) runs. -/
def handle_route_options (baseUrl : String) (raw : RawRequest)
    (outcome : FetchOutcome) : Except HTTPException RouteOptionsResponse :=
  match validateRequest raw with
  | .error e => .error e
  | .ok req => route_options baseUrl req outcome

/-- Example request used by concrete witnesses: the diagnostic coordinate
pair from `osrm_test` (src/main.py lines 146-147) with the default
preference, k, fuel price and vehicle profile. -/
def reqEx : RouteOptionsRequest :=
  { origin := ⟨24448/10000, -766147/10000⟩
    destination := ⟨2455/1000, -76598/1000⟩
    preference := "FASTEST"
    k := 3
    fuel_price_per_liter := 15000
    vehicle := ⟨15/2⟩ }

/-- Example upstream body with three alternative routes, durations 600 s,
720 s and 540 s (the scenario of spec section 8). -/
def bodyEx : OsrmBody :=
  ⟨some [⟨1000, 600, "gA"⟩, ⟨2000, 720, "gB"⟩, ⟨1600, 540, "gC"⟩]⟩

/-- Example upstream body with a single route. -/
def bodyEx1 : OsrmBody :=
  ⟨some [⟨1000, 600, "gA"⟩]⟩

/-- Example raw inbound request whose origin latitude 100 is out of
range. -/
def rawEx : RawRequest :=
  { origin_lat := 100
    origin_lng := -766147/10000
    dest_lat := 2455/1000
    dest_lng := -76598/1000
    preference := "FASTEST"
    k := 3
    fuel_price_per_liter := 15000
    fuel_l_per_100km := 15/2 }

/-! ## Helper lemmas -/

theorem buildLoop_length (req : RouteOptionsRequest) :
    ∀ (n : ℕ) (rs : List OsrmRoute), (buildLoop req n rs).length = rs.length := by
  intro n rs
  induction rs generalizing n with
  | nil => rfl
  | cons rt rest ih => simp [buildLoop, ih]

theorem builtOptions_length (req : RouteOptionsRequest) (routes : List OsrmRoute) :
    (builtOptions req routes).length = min req.k routes.length := by
  unfold builtOptions
  rw [buildLoop_length, List.length_take]

theorem mem_buildLoop (req : RouteOptionsRequest) {opt : RouteOption} :
    ∀ {n : ℕ} {rs : List OsrmRoute}, opt ∈ buildLoop req n rs →
      ∃ i, ∃ rt ∈ rs, opt = buildOption req i rt := by
  intro n rs h
  induction rs generalizing n with
  | nil => simp [buildLoop] at h
  | cons rt rest ih =>
      rcases (List.mem_cons).mp h with h' | h'
      · exact ⟨n, rt, List.mem_cons_self rt rest, h'⟩
      · obtain ⟨i, rt', hmem, heq⟩ := ih h'
        exact ⟨i, rt', List.mem_cons_of_mem rt hmem, heq⟩

theorem route_options_success (baseUrl : String) (req : RouteOptionsRequest)
    (body : OsrmBody) (hne : body.getRoutes ≠ []) :
    route_options baseUrl req (.success body) =
      .ok { preference := req.preference
            requested := req.k
            returned := ((builtOptions req body.getRoutes).insertionSort scoreLE).length
            routes := (builtOptions req body.getRoutes).insertionSort scoreLE } := by
  unfold route_options osrm_get_routes
  simp [hne]

/-! ## Claims -/

/-- C1: a successful route-options response consists of exactly the first
min(K, N) upstream candidates (truncated before any reordering, with
identifiers assigned in upstream order), stably sorted ascending by score:
the response list is a permutation of the truncated built list, it is
sorted by score, and any equal-score pair keeps its pre-sort relative
order. -/
theorem C1_truncate_then_stable_sort (baseUrl : String) (req : RouteOptionsRequest)
    (body : OsrmBody) (hne : body.getRoutes ≠ []) :
    ∃ resp, route_options baseUrl req (.success body) = .ok resp ∧
      resp.routes.Perm (builtOptions req body.getRoutes) ∧
      List.Sorted scoreLE resp.routes ∧
      ∀ a b : RouteOption, a.score = b.score →
        [a, b].Sublist (builtOptions req body.getRoutes) →
        [a, b].Sublist resp.routes := by
  refine ⟨_, route_options_success baseUrl req body hne, ?_, ?_, ?_⟩
  · exact List.perm_insertionSort scoreLE _
  · exact List.sorted_insertionSort scoreLE _
  · intro a b hs hsub
    exact List.pair_sublist_insertionSort (le_of_eq hs) hsub

/-- C1 witness: instantiation at a concrete request and a three-route
upstream body. -/
theorem C1_truncate_then_stable_sort_witness :
    ∃ resp, route_options "http://osrm.local" reqEx (.success bodyEx) = .ok resp ∧
      resp.routes.Perm (builtOptions reqEx bodyEx.getRoutes) ∧
      List.Sorted scoreLE resp.routes ∧
      ∀ a b : RouteOption, a.score = b.score →
        [a, b].Sublist (builtOptions reqEx bodyEx.getRoutes) →
        [a, b].Sublist resp.routes :=
  C1_truncate_then_stable_sort "http://osrm.local" reqEx bodyEx (by decide)

/-- C2: every successful route-options response has `requested = K`,
`returned = min(K, upstream alternative count)`, and a routes list whose
length equals `returned`. -/
theorem C2_response_counts (baseUrl : String) (req : RouteOptionsRequest)
    (body : OsrmBody) (hne : body.getRoutes ≠ []) :
    ∃ resp, route_options baseUrl req (.success body) = .ok resp ∧
      resp.requested = req.k ∧
      resp.returned = min req.k body.getRoutes.length ∧
      resp.routes.length = resp.returned := by
  refine ⟨_, route_options_success baseUrl req body hne, rfl, ?_, rfl⟩
  simp only [List.length_insertionSort, builtOptions_length]

/-- C2 witness: instantiation at a concrete request asking for k = 3 and a
three-route upstream body. -/
theorem C2_response_counts_witness :
    ∃ resp, route_options "http://osrm.local" reqEx (.success bodyEx) = .ok resp ∧
      resp.requested = reqEx.k ∧
      resp.returned = min reqEx.k bodyEx.getRoutes.length ∧
      resp.routes.length = resp.returned :=
  C2_response_counts "http://osrm.local" reqEx bodyEx (by decide)

/-- C3: when the upstream fetch succeeds but yields no candidate routes
(in particular for any validated request, whose k is at least 1), the
handler fails with the 404 NotFound error, and no successful response ever
carries an empty routes list. -/
theorem C3_empty_routes_404 (baseUrl : String) (req : RouteOptionsRequest)
    (hk : 1 ≤ req.k) (body : OsrmBody) (hbody : body.getRoutes = []) :
    route_options baseUrl req (.success body) = .error ⟨404, "No se encontraron rutas"⟩ ∧
    ∀ (outcome : FetchOutcome) (resp : RouteOptionsResponse),
      route_options baseUrl req outcome = .ok resp → resp.routes ≠ [] := by
  constructor
  · unfold route_options osrm_get_routes
    simp [hbody]
  · intro outcome resp hok
    match outcome with
    | .connectionError => simp [route_options, osrm_get_routes] at hok
    | .requestFailure e => simp [route_options, osrm_get_routes] at hok
    | .success body' =>
        by_cases hne : body'.getRoutes = []
        · unfold route_options osrm_get_routes at hok
          simp [hne] at hok
        · rw [route_options_success baseUrl req body' hne] at hok
          have hresp := (Except.ok.injEq _ _).mp hok
          have hlen : resp.routes.length =
              min req.k body'.getRoutes.length := by
            rw [← hresp]
            simp only [List.length_insertionSort, builtOptions_length]
          apply List.ne_nil_of_length_pos
          rw [hlen]
          have h1 : 0 < req.k := hk
          have h2 : 0 < body'.getRoutes.length := List.length_pos.mpr hne
          omega

/-- C3 witness: instantiation at a concrete request, the empty upstream
body, and a concrete successful run. -/
theorem C3_empty_routes_404_witness :
    route_options "http://osrm.local" reqEx (.success ⟨some []⟩) =
      .error ⟨404, "No se encontraron rutas"⟩ ∧
    ∀ (outcome : FetchOutcome) (resp : RouteOptionsResponse),
      route_options "http://osrm.local" reqEx outcome = .ok resp → resp.routes ≠ [] :=
  C3_empty_routes_404 "http://osrm.local" reqEx (by decide) ⟨some []⟩ (by decide)

/-- C4: `score_route` returns exactly the metric selected by the
preference, and duration for any unrecognized preference string. -/
theorem C4_score_selects_metric (d dur f c : ℚ) :
    score_route "FASTEST" d dur f c = dur ∧
    score_route "SHORT_DISTANCE" d dur f c = d ∧
    score_route "LOW_FUEL" d dur f c = f ∧
    score_route "CHEAPEST" d dur f c = c ∧
    ∀ pref : String, pref ∉ validPreferences → score_route pref d dur f c = dur := by
  refine ⟨rfl, rfl, rfl, rfl, ?_⟩
  intro pref h
  simp only [validPreferences, List.mem_cons, List.not_mem_nil, or_false, not_or] at h
  obtain ⟨h1, h2, h3, h4⟩ := h
  simp [score_route, h1, h2, h3, h4]

/-- C4 witness: instantiation at concrete metrics and the unrecognized
preference string "PRETTIEST". -/
theorem C4_score_selects_metric_witness :
    "PRETTIEST" ∉ validPreferences ∧
    score_route "PRETTIEST" 1 2 3 4 = 2 :=
  ⟨by decide, (C4_score_selects_metric 1 2 3 4).2.2.2.2 "PRETTIEST" (by decide)⟩

/-- C5: `estimate_fuel` is the pure function
`distance_km * consumption_rate / 100`, total on all inputs, and its
result is nonnegative whenever the distance is nonnegative and the
consumption rate positive. -/
theorem C5_estimate_fuel_contract (d r : ℚ) :
    estimate_fuel d r = d * r / 100 ∧
    (0 ≤ d → 0 < r → 0 ≤ estimate_fuel d r) := by
  refine ⟨rfl, fun hd hr => ?_⟩
  unfold estimate_fuel
  have := mul_nonneg hd hr.le
  positivity

/-- C5 witness: instantiation at distance 2 km and rate 8 L/100km. -/
theorem C5_estimate_fuel_contract_witness :
    (0 : ℚ) ≤ 2 ∧ (0 : ℚ) < 8 ∧
    estimate_fuel 2 8 = 2 * 8 / 100 ∧ 0 ≤ estimate_fuel 2 8 :=
  ⟨by norm_num, by norm_num, (C5_estimate_fuel_contract 2 8).1,
    (C5_estimate_fuel_contract 2 8).2 (by norm_num) (by norm_num)⟩

/-- C6: in every RouteOption of a successful response, the presentation
fields are the raw converted values rounded to 3 (distance), 1 (duration),
3 (fuel liters) and 0 (fuel cost) decimal places, while the score field is
computed by `score_route` from the unrounded distance, duration, fuel and
cost values. -/
theorem C6_rounding_is_presentation_only (baseUrl : String)
    (req : RouteOptionsRequest) (body : OsrmBody) (hne : body.getRoutes ≠ []) :
    ∃ resp, route_options baseUrl req (.success body) = .ok resp ∧
      ∀ opt ∈ resp.routes, ∃ rt ∈ body.getRoutes.take req.k,
        opt.distance_km = pyRound 3 (rt.distance / 1000) ∧
        opt.duration_min = pyRound 1 (rt.duration / 60) ∧
        opt.fuel_liters =
          pyRound 3 (estimate_fuel (rt.distance / 1000) req.vehicle.fuel_l_per_100km) ∧
        opt.fuel_cost_cop =
          pyRound 0 (estimate_fuel (rt.distance / 1000) req.vehicle.fuel_l_per_100km *
            (req.fuel_price_per_liter : ℚ)) ∧
        opt.score = score_route req.preference (rt.distance / 1000) (rt.duration / 60)
          (estimate_fuel (rt.distance / 1000) req.vehicle.fuel_l_per_100km)
          (estimate_fuel (rt.distance / 1000) req.vehicle.fuel_l_per_100km *
            (req.fuel_price_per_liter : ℚ)) := by
  refine ⟨_, route_options_success baseUrl req body hne, ?_⟩
  intro opt hopt
  have hmem : opt ∈ builtOptions req body.getRoutes :=
    (List.mem_insertionSort scoreLE).mp hopt
  obtain ⟨i, rt, hrt, heq⟩ := mem_buildLoop req hmem
  refine ⟨rt, hrt, ?_, ?_, ?_, ?_, ?_⟩ <;> rw [heq] <;> rfl

/-- C6 witness: instantiation at a concrete request and a three-route
upstream body. -/
theorem C6_rounding_is_presentation_only_witness :
    ∃ resp, route_options "http://osrm.local" reqEx (.success bodyEx) = .ok resp ∧
      ∀ opt ∈ resp.routes, ∃ rt ∈ bodyEx.getRoutes.take reqEx.k,
        opt.distance_km = pyRound 3 (rt.distance / 1000) ∧
        opt.duration_min = pyRound 1 (rt.duration / 60) ∧
        opt.fuel_liters =
          pyRound 3 (estimate_fuel (rt.distance / 1000) reqEx.vehicle.fuel_l_per_100km) ∧
        opt.fuel_cost_cop =
          pyRound 0 (estimate_fuel (rt.distance / 1000) reqEx.vehicle.fuel_l_per_100km *
            (reqEx.fuel_price_per_liter : ℚ)) ∧
        opt.score = score_route reqEx.preference (rt.distance / 1000) (rt.duration / 60)
          (estimate_fuel (rt.distance / 1000) reqEx.vehicle.fuel_l_per_100km)
          (estimate_fuel (rt.distance / 1000) reqEx.vehicle.fuel_l_per_100km *
            (reqEx.fuel_price_per_liter : ℚ)) :=
  C6_rounding_is_presentation_only "http://osrm.local" reqEx bodyEx (by decide)

/-- C7: the upstream fetcher maps a connection failure to a 502 error whose
message carries the configured base URL, maps any other request failure to
a 502 error carrying the underlying failure description, and returns the
parsed body on success; each run consumes exactly one transport outcome,
so no retry ever happens. -/
theorem C7_fetch_error_mapping (baseUrl : String) :
    osrm_get_routes baseUrl .connectionError =
      .error ⟨502, "No hay conexión con OSRM en " ++ baseUrl ++
        ". Verifica que OSRM esté activo."⟩ ∧
    (∀ e : String, osrm_get_routes baseUrl (.requestFailure e) =
      .error ⟨502, "OSRM error: " ++ e⟩) ∧
    (∀ body : OsrmBody, osrm_get_routes baseUrl (.success body) = .ok body) :=
  ⟨rfl, fun _ => rfl, fun _ => rfl⟩

/-- C8: a request whose origin or destination coordinates are out of range,
or whose k is outside [1, 5], is rejected with a 422 client error, and the
result does not depend on the fetch outcome at all: no network call is
consumed. -/
theorem C8_validation_rejects_before_fetch (baseUrl : String) (raw : RawRequest)
    (h : raw.origin_lat < -90 ∨ 90 < raw.origin_lat ∨
         raw.origin_lng < -180 ∨ 180 < raw.origin_lng ∨
         raw.dest_lat < -90 ∨ 90 < raw.dest_lat ∨
         raw.dest_lng < -180 ∨ 180 < raw.dest_lng ∨
         raw.k < 1 ∨ 5 < raw.k) :
    ∃ err : HTTPException, err.status_code = 422 ∧
      ∀ outcome : FetchOutcome,
        handle_route_options baseUrl raw outcome = .error err := by
  have hv : ¬ raw.Valid := by
    intro hval
    obtain ⟨h1, h2, h3, h4, h5, h6, h7, h8, -, h10, h11, -⟩ := hval
    rcases h with h | h | h | h | h | h | h | h | h | h
    all_goals linarith
  refine ⟨⟨422, "Unprocessable Entity"⟩, rfl, fun outcome => ?_⟩
  unfold handle_route_options validateRequest
  simp [hv]

/-- C8 witness: instantiation at a concrete raw request whose origin
latitude is 100. -/
theorem C8_validation_rejects_before_fetch_witness :
    ∃ err : HTTPException, err.status_code = 422 ∧
      ∀ outcome : FetchOutcome,
        handle_route_options "http://osrm.local" rawEx outcome = .error err :=
  C8_validation_rejects_before_fetch "http://osrm.local" rawEx
    (Or.inr (Or.inl (by norm_num [rawEx])))

/-- C9: estimated fuel is proportional to distance: doubling the distance
doubles the liters, for any nonnegative distance and positive rate. -/
theorem C9_fuel_proportional_to_distance (d r : ℚ) (_hd : 0 ≤ d) (_hr : 0 < r) :
    estimate_fuel (2 * d) r = 2 * estimate_fuel d r := by
  unfold estimate_fuel
  ring

/-- C9 witness: instantiation at distance 3 km and rate 10 L/100km. -/
theorem C9_fuel_proportional_to_distance_witness :
    (0 : ℚ) ≤ 3 ∧ (0 : ℚ) < 10 ∧
    estimate_fuel (2 * 3) 10 = 2 * estimate_fuel 3 10 :=
  ⟨by norm_num, by norm_num,
    C9_fuel_proportional_to_distance 3 10 (by norm_num) (by norm_num)⟩

/-- C10: a successfully fetched body with no "routes" key at all is handled
exactly like one with an empty routes list: the handler result is
identical, namely the 404 NotFound error (and in particular not a 502
upstream error). -/
theorem C10_missing_routes_key_is_404 (baseUrl : String)
    (req : RouteOptionsRequest) :
    route_options baseUrl req (.success ⟨none⟩) =
      route_options baseUrl req (.success ⟨some []⟩) ∧
    route_options baseUrl req (.success ⟨none⟩) =
      .error ⟨404, "No se encontraron rutas"⟩ :=
  ⟨rfl, rfl⟩

/-- Batteries `Rat.floor` agrees with the `FloorRing` floor on ℚ. -/
theorem ratFloor_eq_intFloor (q : ℚ) : Rat.floor q = ⌊q⌋ := by
  rw [Rat.floor_def, Rat.floor_def']

/-- Sanity check of the embedding against the scenario of spec section 8:
three upstream alternatives with durations 600 s, 720 s and 540 s and
preference FASTEST come back sorted by duration (9, 10, 12 minutes), with
identifiers recording the upstream order and `returned = 3`. -/
theorem route_options_scenario :
    route_options "http://osrm.local" reqEx (.success bodyEx) =
      .ok ⟨"FASTEST", 3, 3,
        [⟨"r3", 8/5, 9, 3/25, 1800, 9, "gC"⟩,
         ⟨"r1", 1, 10, 3/40, 1125, 10, "gA"⟩,
         ⟨"r2", 2, 12, 3/20, 2250, 12, "gB"⟩]⟩ := by
  norm_num [route_options, osrm_get_routes, OsrmBody.getRoutes, builtOptions, buildLoop,
    buildOption, estimate_fuel, score_route, reqEx, bodyEx, List.insertionSort,
    List.orderedInsert, scoreLE, pyRound, roundHalfEven, ratFloor_eq_intFloor,
    Int.floor_intCast, Int.floor_natCast, Int.floor_ofNat]
  exact ⟨by decide, by decide, by decide⟩
